import Mathlib

/-!
Verification of the beartype runtime type-checking decorator core.

This development embeds, as executable Lean definitions, the parts of the
beartype sources that the verified properties are about:

* `beartype/_decor/decor.py` — the `beartype` decorator, its parameter loop,
  the hint validator `_check_type_annotation`, and the code-assembly helper
  `_get_code_replacing_annotation_by_types`;
* `beartype/_util/hint/pep/proposal/utilpep484.py` — the PEP 484
  ignorability analyzer `is_hint_pep484_ignorable_or_none`;
* `beartype/vale/_valeisobj.py` — the `IsAttr.__class_getitem__` validator
  factory.

Python objects that can appear as annotations are modelled by the inductive
type `PyObj`; the dynamically generated wrapper source is modelled as a list
of `Code` values, one per snippet template interpolated by the decorator
(the template texts live in `beartype/_decor/code.py`, which is not part of
the embedded sources; each constructor records which template is emitted and
with which format arguments, following the specification of the code
synthesizer).  Exceptions are modelled by the `Exc` type and fallible Python
functions by `Except Exc`.
-/

namespace BeartypeSpec

/-- A Python object in any of the shapes relevant to beartype's annotation
handling: a class (instance of `ClassType`, identified here by its name), a
string, a tuple of objects, `None`, or some other non-hint object
(represented by an integer payload). -/
inductive PyObj : Type where
  | cls (name : String)
  | str (s : String)
  | tup (items : List PyObj)
  | pyNone
  | int (n : Int)

/-- `isinstance(x, ClassType)`: true exactly for class objects. -/
def PyObj.isClass : PyObj → Bool
  | .cls _ => true
  | _ => false

/-- `isinstance(x, str)`: true exactly for string objects. -/
def PyObj.isStr : PyObj → Bool
  | .str _ => true
  | _ => false

mutual

/-- `str(x)` as interpolated by `str.format` into beartype's error messages.
The precise rendering of each shape is a model of CPython's `str`; the
verified properties only rely on the rendering of an object appearing as a
substring of the message that reports it. -/
def pyStr : PyObj → String
  | .cls name => "<class " ++ name ++ ">"
  | .str s => s
  | .pyNone => "None"
  | .int n => toString n
  | .tup items => "(" ++ pyStrItems items ++ ")"

/-- Comma-separated rendering of the items of a tuple, following CPython's
trailing comma for a one-item tuple. -/
def pyStrItems : List PyObj → String
  | [] => ""
  | [x] => pyStr x ++ ","
  | x :: y :: rest => pyStr x ++ ", " ++ pyStrItems (y :: rest)

end

/-- `str.startswith`: `pre` is a prefix of `s`, decided over the character
data (the stdlib `String.startsWith` is not kernel-reducible). -/
def pyStartsWith (s pre : String) : Bool :=
  pre.data.isPrefixOf s.data

/-- `"." in s`, decided over the character data. -/
def pyHasDot (s : String) : Bool :=
  s.data.contains '.'

/-- `s.rsplit(sep=".", maxsplit=1)`: the module part (everything before the
last dot) paired with the basename (everything after the last dot). -/
def pyRsplitDot (s : String) : String × String :=
  let parts := s.data.splitOn '.'
  (String.mk (List.intercalate ['.'] parts.dropLast),
   String.mk (parts.getLastD []))

/-- The beartype exceptions raised by the embedded code, each carrying its
message: `BeartypeDecorHintValueException`,
`BeartypeDecorParamNameException`, `BeartypeDecorParseException`,
`BeartypeValeSubscriptionException`, and a generic Python-level error (such
as the `AttributeError` obtained by accessing a missing attribute). -/
inductive Exc : Type where
  | hintValue (msg : String)
  | paramName (msg : String)
  | parse (msg : String)
  | valeSubscription (msg : String)
  | pyError (msg : String)
deriving DecidableEq

/-- `s` contains `sub` as a contiguous substring. -/
def containsStr (s sub : String) : Prop :=
  ∃ pre post, s = pre ++ sub ++ post

theorem containsStr_left (sub post : String) : containsStr (sub ++ post) sub :=
  ⟨"", post, by rw [String.append_assoc]; simp⟩

theorem containsStr_mid (pre sub post : String) :
    containsStr (pre ++ sub ++ post) sub :=
  ⟨pre, post, rfl⟩

/-- Message of the exception raised for a tuple item that is neither a class
nor a string (`is_str_valid=True` arm of `_check_type_annotation`). -/
def msgTupleItem (label : String) (item : PyObj) : String :=
  label ++ " tuple item " ++ pyStr item ++
  " neither a class nor fully-qualified classname."

/-- Message of the exception raised for a tuple member that is not a class
(`is_str_valid=False` arm of `_check_type_annotation`). -/
def msgTupleMember (label : String) (item : PyObj) : String :=
  label ++ " tuple member " ++ pyStr item ++ " not a class."

/-- Message of the exception raised for an unsupported annotation when
string annotations are acceptable. -/
def msgUnsupportedStrValid (label : String) (a : PyObj) : String :=
  label ++ " " ++ pyStr a ++
  " unsupported (i.e., neither a class, fully-qualified classname, nor tuple of classes and/or classnames)."

/-- Message of the exception raised for an unsupported annotation when
string annotations are unacceptable. -/
def msgUnsupportedClassOnly (label : String) (a : PyObj) : String :=
  label ++ " " ++ pyStr a ++
  " unsupported (i.e., neither a class nor tuple of classes)."

/-- The `for subannotation in annotation` loop of `_check_type_annotation`
under `is_str_valid=True`: raise on the first tuple item that is neither a
class nor a string. -/
def checkTupleItemsStrValid (label : String) : List PyObj → Except Exc Unit
  | [] => .ok ()
  | item :: rest =>
    if item.isClass || item.isStr then checkTupleItemsStrValid label rest
    else .error (.hintValue (msgTupleItem label item))

/-- The `for subannotation in annotation` loop of `_check_type_annotation`
under `is_str_valid=False`: raise on the first tuple member that is not a
class. -/
def checkTupleItemsClassOnly (label : String) : List PyObj → Except Exc Unit
  | [] => .ok ()
  | item :: rest =>
    if item.isClass then checkTupleItemsClassOnly label rest
    else .error (.hintValue (msgTupleMember label item))

/-- `_check_type_annotation(annotation, annotation_label, is_str_valid)` of
`beartype/_decor/decor.py`: validate an annotation to be a class, a
classname string (when `is_str_valid`), or a tuple of classes and (when
`is_str_valid`) classname strings, raising
`BeartypeDecorHintValueException` otherwise. -/
def checkTypeAnnot (a : PyObj) (label : String) (is_str_valid : Bool) :
    Except Exc Unit :=
  if a.isClass then .ok ()
  else if is_str_valid then
    match a with
    | .tup items => checkTupleItemsStrValid label items
    | _ =>
      if a.isStr then .ok ()
      else .error (.hintValue (msgUnsupportedStrValid label a))
  else
    match a with
    | .tup items => checkTupleItemsClassOnly label items
    | _ => .error (.hintValue (msgUnsupportedClassOnly label a))

/-- `inspect.Parameter.kind`: the five parameter kinds of a Python callable
signature. -/
inductive ParamKind : Type where
  | positionalOnly
  | positionalOrKeyword
  | varPositional
  | keywordOnly
  | varKeyword
deriving DecidableEq

/-- One parameter of an introspected signature: its name, kind, and
annotation (`none` models the `Parameter.empty` sentinel of an unannotated
parameter). -/
structure Param : Type where
  name : String
  kind : ParamKind
  hint : Option PyObj

/-- An introspected `inspect.Signature`: the ordered parameters and the
return annotation (`none` models `Signature.empty`; `some PyObj.pyNone`
models an explicit `-> None`). -/
structure Sig : Type where
  params : List Param
  return_hint : Option PyObj

/-- One interpolated snippet of the dynamically generated wrapper body.

Modelled from the spec: the snippet template texts live in
`beartype/_decor/code.py`, which is absent from the embedded sources; each
constructor stands for one template together with the arguments
`beartype/_decor/decor.py` formats into it.  Per the code-synthesizer
specification, `callChecked` stands for the checked epilogue
(assign the wrapped call's result, type-check it against the resolved
return annotation, return it) and `callUnchecked` for the bare epilogue
(`return __beartype_func(*args, **kwargs)` with no return check). -/
inductive Code : Type where
  | sigDecl (func_beartyped_name : String)
  | strReplace (hint_expr label basename import_module : String)
  | tupleStrTest (first_name_expr : String)
  | tupleStrImport (module_name basename : String)
  | tupleStrAppend (label basename : String)
  | tupleClassAppend (item_expr : String)
  | tupleReplace (hint_expr : String)
  | paramVariadicPositional (func_name arg_name : String) (arg_index : Nat)
      (arg_type_expr : String)
  | paramKeywordOnly (func_name arg_name arg_type_expr arg_value_key_expr : String)
  | paramPositionalOrKeyword (func_name arg_name : String) (arg_index : Nat)
      (arg_type_expr arg_value_key_expr arg_value_pos_expr : String)
  | callChecked (func_name return_type_expr : String)
  | callUnchecked

/-- A Python callable as seen by the decorator: either an ordinary function
carrying a name and a signature, or a wrapper produced by `beartype` (the
generated body together with the wrapped callable). -/
inductive Callable : Type where
  | plain (name : String) (sig : Sig)
  | beartyped (func_body : List Code) (wrapped : Callable)

/-- `func.__name__`.  `functools.update_wrapper` copies `__name__` from the
wrapped callable onto the wrapper, so a wrapper reports the name of the
callable it wraps. -/
def Callable.pyName : Callable → String
  | .plain n _ => n
  | .beartyped _ w => w.pyName

/-- `inspect.signature(func)`.  `functools.update_wrapper` sets
`__wrapped__` on the wrapper and `inspect.signature` follows that chain, so
a wrapper reports the signature of the callable it wraps. -/
def Callable.pySig : Callable → Sig
  | .plain _ s => s
  | .beartyped _ w => w.pySig

/-- `_CODE_ANNOTATIONS_PARAM.format(func_arg.name)`: the expression reading
this parameter's annotation from the wrapper's annotation mapping.
Modelled from the spec: the template lives in `beartype/_decor/code.py`,
absent from the embedded sources. -/
def codeAnnotParamExpr (arg_name : String) : String :=
  "__beartype_func.__annotations__[" ++ "\x27" ++ arg_name ++ "\x27]"

/-- `_CODE_ANNOTATIONS_RETURN`: the expression reading the return
annotation from the wrapper's annotation mapping.  Modelled from the spec:
the template lives in `beartype/_decor/code.py`, absent from the embedded
sources. -/
def codeAnnotReturnExpr : String :=
  "__beartype_func.__annotations__[" ++ "\x27return\x27]"

/-- `_get_code_replacing_annotation_by_types` of
`beartype/_decor/decor.py`: the code snippets dynamically replacing the
classnames inside an annotation with the classes they name.  A classname
annotation yields one import-and-replace snippet; a tuple annotation
containing at least one classname yields a test snippet, per-item
import/append snippets and a replace snippet; every other annotation yields
no code. -/
def getCodeReplacingHintByTypes (a : PyObj) (hint_expr label : String) :
    List Code :=
  match a with
  | .str s =>
    if pyHasDot s then
      let mb := pyRsplitDot s
      [Code.strReplace hint_expr label mb.2 mb.1]
    else
      [Code.strReplace hint_expr label s ""]
  | .tup items =>
    let name_indices :=
      (items.enum.filter (fun p => p.2.isStr)).map (fun p => p.1)
    match name_indices with
    | [] => []
    | i0 :: _ =>
      let test :=
        Code.tupleStrTest (hint_expr ++ "[" ++ toString i0 ++ "]")
      let perItem :=
        (items.enum.map (fun p =>
          match p.2 with
          | .str s =>
            if pyHasDot s then
              let mb := pyRsplitDot s
              [Code.tupleStrImport mb.1 mb.2, Code.tupleStrAppend label mb.2]
            else
              [Code.tupleStrAppend label s]
          | _ =>
            [Code.tupleClassAppend
              (hint_expr ++ "[" ++ toString p.1 ++ "]")])).flatten
      test :: perItem ++ [Code.tupleReplace hint_expr]
  | _ => []

/-- `_PARAM_KIND_IGNORABLE` of `beartype/_decor/decor.py`: the parameter
kinds ignored during annotation-based type checking. -/
def _PARAM_KIND_IGNORABLE : List ParamKind :=
  [ParamKind.positionalOnly, ParamKind.varKeyword]

/-- The label `'{} parameter "{}" type annotation'` describing a parameter
annotation in exception messages. -/
def paramLabel (func_name arg_name : String) : String :=
  func_name ++ " parameter \"" ++ arg_name ++ "\" type annotation"

/-- One iteration of the decorator's parameter loop: reject reserved
parameter names, then (for an annotated parameter of a non-ignorable kind)
validate the annotation and emit the replacement snippets followed by the
kind-specific check snippet.  Unannotated parameters and parameters of
ignorable kinds contribute no code. -/
def processParam (func_name : String) (arg_index : Nat) (p : Param) :
    Except Exc (List Code) :=
  if pyStartsWith p.name "__beartype_" then
    .error (.paramName
      ("Parameter \"" ++ p.name ++ "\" reserved for use by @beartype."))
  else
    match p.hint with
    | some a =>
      if p.kind ∈ _PARAM_KIND_IGNORABLE then .ok []
      else
        match checkTypeAnnot a (paramLabel func_name p.name) true with
        | .error e => .error e
        | .ok () =>
          .ok (getCodeReplacingHintByTypes a (codeAnnotParamExpr p.name)
              (paramLabel func_name p.name) ++
            (match p.kind with
             | .varPositional =>
               [Code.paramVariadicPositional func_name p.name arg_index
                 (codeAnnotParamExpr p.name)]
             | .keywordOnly =>
               [Code.paramKeywordOnly func_name p.name
                 (codeAnnotParamExpr p.name)
                 ("kwargs[" ++ "\x27" ++ p.name ++ "\x27]")]
             | _ =>
               [Code.paramPositionalOrKeyword func_name p.name arg_index
                 (codeAnnotParamExpr p.name)
                 ("kwargs[" ++ "\x27" ++ p.name ++ "\x27]")
                 ("args[" ++ toString arg_index ++ "]")]))
    | none => .ok []

/-- The decorator's `for func_arg_index, func_arg in enumerate(...)` loop,
threading the enumeration index and concatenating the emitted snippets;
the first exception aborts decoration. -/
def processParams (func_name : String) :
    Nat → List Param → Except Exc (List Code)
  | _, [] => .ok []
  | i, p :: rest =>
    match processParam func_name i p with
    | .error e => .error e
    | .ok c =>
      match processParams func_name (i + 1) rest with
      | .error e => .error e
      | .ok cs => .ok (c ++ cs)

/-- The decorator's return-annotation handling: if the return annotation is
`Signature.empty` or `None`, emit the unchecked call; otherwise validate
the annotation and emit its replacement snippets followed by the checked
call. -/
def processReturn (func_name : String) (ret : Option PyObj) :
    Except Exc (List Code) :=
  match ret with
  | none => .ok [Code.callUnchecked]
  | some a =>
    match a with
    | .pyNone => .ok [Code.callUnchecked]
    | _ =>
      match checkTypeAnnot a (func_name ++ " return type annotation") true with
      | .error e => .error e
      | .ok () =>
        .ok (getCodeReplacingHintByTypes a codeAnnotReturnExpr
            (func_name ++ " return type annotation") ++
          [Code.callChecked func_name codeAnnotReturnExpr])

/-- The `beartype` decorator of `beartype/_decor/decor.py` (the `__debug__`
branch): introspect the signature, process every parameter and the return
annotation, and wrap the callable in the generated body.  The `exec` of the
generated source and the subsequent `functools.update_wrapper` are modelled
by the `Callable.beartyped` constructor (the generated source is produced
by the decorator itself, so its evaluation succeeds). -/
def beartype (func : Callable) : Except Exc Callable :=
  match processParams ("@beartyped " ++ func.pyName ++ "()") 0
      func.pySig.params with
  | .error e => .error e
  | .ok paramCode =>
    match processReturn ("@beartyped " ++ func.pyName ++ "()")
        func.pySig.return_hint with
    | .error e => .error e
    | .ok retCode =>
      .ok (.beartyped
        (Code.sigDecl ("__" ++ func.pyName ++ "_beartyped__") ::
          (paramCode ++ retCode)) func)

/-- The module-level optimization switch at the bottom of
`beartype/_decor/decor.py`: when the interpreter is optimized
(`__debug__` false), the public `beartype` name is rebound once, at module
initialization, to the identity decorator; otherwise it is the decorator
above. -/
def beartypeModule (debug : Bool) : Callable → Except Exc Callable :=
  if debug then beartype else fun func => .ok func

/-! ### PEP 484 ignorability analyzer
(`beartype/_util/hint/pep/proposal/utilpep484.py`) -/

/-- The sign of a PEP-compliant hint, restricted to the signs
`is_hint_pep484_ignorable_or_none` dispatches on: `HintSignGeneric`,
`HintSignNewType`, the members of `HINT_SIGNS_UNION` (`HintSignUnion` and
`HintSignOptional`), and any other sign. -/
inductive HintSign : Type where
  | generic
  | newType
  | union
  | optionalSign
  | otherSign
deriving DecidableEq

/-- `HINT_SIGNS_UNION` of `beartype/_data/hint/pep/sign/datapepsignset.py`.
Modelled from the spec: that submodule is absent from the embedded sources;
the union signs are those of `typing.Union` and `typing.Optional`. -/
def HINT_SIGNS_UNION : List HintSign :=
  [HintSign.union, HintSign.optionalSign]

/-- A PEP-compliant hint in the shapes the ignorability analyzer consumes:
a generic (with its origin, if any, and subscripted arguments), a new type
(with its aliased hint), a union (with its child hints), or an atomic
hint. -/
inductive PepHint : Type where
  | generic (origin : Option String) (args : List PepHint)
  | newTypeAlias (supertype : PepHint)
  | unionOf (args : List PepHint)
  | atom (name : String)

/-- `get_hint_pep_args` of `beartype/_util/hint/pep/utilpepget.py`.
Modelled from the spec: that submodule is absent from the embedded sources;
it returns the tuple of child hints subscripting a hint (empty for
unsubscripted hints). -/
def get_hint_pep_args : PepHint → List PepHint
  | .generic _ args => args
  | .unionOf args => args
  | _ => []

/-- `get_hint_pep_origin_or_none` of
`beartype/_util/hint/pep/utilpepget.py`.  Modelled from the spec: that
submodule is absent from the embedded sources; it returns the origin object
of a hint if any.  The `typing.Generic` superclass is identified by the
name `"typing.Generic"`. -/
def get_hint_pep_origin_or_none : PepHint → Option String
  | .generic origin _ => origin
  | _ => none

/-- `get_hint_pep484_newtype_class` of
`beartype/_util/hint/pep/proposal/utilpep484.py`: the hint aliased by a
`typing.NewType` hint (its `__supertype__`).  On a non-new-type the real
getter raises; the analyzer only applies it under the new-type sign, so the
fallback branch is never relevant to the verified properties. -/
def get_hint_pep484_newtype_class : PepHint → PepHint
  | .newTypeAlias supertype => supertype
  | h => h

/-- `is_hint_pep484_ignorable_or_none(hint, hint_sign)` of
`beartype/_util/hint/pep/proposal/utilpep484.py`: `some true` for a deeply
ignorable PEP 484 hint, `some false` for an unignorable one decided here,
`none` when undecided under PEP 484.  The recursive parent tester
`is_hint_ignorable` (from `beartype/_util/hint/utilhinttest.py`, absent
from the embedded sources) is passed as a function argument. -/
def is_hint_pep484_ignorable_or_none (is_hint_ignorable : PepHint → Bool)
    (hint : PepHint) (hint_sign : HintSign) : Option Bool :=
  if hint_sign = HintSign.generic then
    if get_hint_pep_origin_or_none hint = some "typing.Generic" then
      some true
    else
      none
  else if hint_sign = HintSign.newType then
    some (is_hint_ignorable (get_hint_pep484_newtype_class hint))
  else if hint_sign ∈ HINT_SIGNS_UNION then
    some ((get_hint_pep_args hint).any is_hint_ignorable)
  else
    none

/-! ### `IsAttr` validator factory (`beartype/vale/_valeisobj.py`) -/

/-- The code fragment of a validator: either the `IsAttr` attribute-probe
fragment (fetch the attribute with a sentinel default into an obfuscated
local, succeed only if the sentinel was not returned and the inner
fragment holds on the fetched value), or an opaque leaf fragment.  The
fragment text itself is a format template (`VALE_CODE_CHECK_ISATTR`);
the structural constructors record the arguments formatted into it. -/
inductive ValeCode : Type where
  | isattrCheck (obj_attr_name attr_name sentinel_name : String)
      (inner : ValeCode)
  | leaf (descr : String)

/-- A `_SubscriptedIs` object (from `beartype/vale/_valeissub.py`, absent
from the embedded sources): the inlinable code fragment together with the
mapping from generated identifiers to captured values (values are
represented by descriptive strings). -/
structure SubscriptedIs : Type where
  is_valid_code : ValeCode
  is_valid_code_locals : List (String × String)

/-- One element of the tuple subscripting `IsAttr`: a string, a
non-string non-validator object (represented by an integer payload), or a
`_SubscriptedIs` validator. -/
inductive ValeItem : Type where
  | strItem (s : String)
  | intItem (n : Int)
  | validatorItem (v : SubscriptedIs)

/-- The argument of `IsAttr.__class_getitem__`: a single non-tuple object
(described by a string) or a tuple of items. -/
inductive ValeArgs : Type where
  | nonTuple (descr : String)
  | tupleArgs (items : List ValeItem)

/-- `str.isidentifier` restricted to ASCII: a nonempty string whose first
character is a letter or underscore and whose remaining characters are
letters, digits or underscores. -/
def isPyIdentifier (s : String) : Bool :=
  match s.data with
  | [] => false
  | c :: cs =>
    (c.isAlpha || c = '_') && cs.all (fun d => d.isAlphanum || d = '_')

/-- The name `add_func_scope_attr` (from
`beartype/_util/func/utilfuncscope.py`, absent from the embedded sources)
assigns to the `SENTINEL` placeholder injected into the wrapper scope.
Modelled from the spec: the generated name is an obfuscated identifier
unique to the sentinel object. -/
def sentinelScopeName : String := "__beartype_object_SENTINEL"

/-- The `_is_valid_code_locals` of the second subscription argument, as
read by `IsAttr.__class_getitem__`.  Reading the attribute from a
non-validator object raises a Python `AttributeError`. -/
def valeItemLocals : ValeItem → Except Exc (List (String × String))
  | .validatorItem v => .ok v.is_valid_code_locals
  | _ => .error (.pyError "AttributeError: _is_valid_code_locals")

/-- The `_is_valid_code` of the second subscription argument. -/
def valeItemCode : ValeItem → Except Exc ValeCode
  | .validatorItem v => .ok v.is_valid_code
  | _ => .error (.pyError "AttributeError: _is_valid_code")

/-- The body of `IsAttr.__class_getitem__` after the two subscription
arguments `(attr_name, attr_validator)` have been unpacked: reject a
non-string or empty name; for an undotted name require a valid identifier
and synthesize the inline attribute-probe fragment with the sentinel
injected into the locals merged with the inner validator's locals; for a
dotted name raise (that synthesis arm is unimplemented). -/
def isAttrHandle (arg1 arg2 : ValeItem) : Except Exc SubscriptedIs :=
  match arg1 with
  | .strItem attr_name =>
    if attr_name = "" then
      .error (.valeSubscription
        ("IsAttr subscripted first argument " ++ attr_name ++ " empty."))
    else if pyHasDot attr_name = false then
      if isPyIdentifier attr_name then
        match valeItemCode arg2, valeItemLocals arg2 with
        | .ok inner, .ok innerLocals =>
          .ok
            { is_valid_code :=
                ValeCode.isattrCheck ("__beartype_isattr_" ++ attr_name)
                  attr_name sentinelScopeName inner
              is_valid_code_locals :=
                (sentinelScopeName, "SENTINEL") :: innerLocals }
        | .error e, _ => .error e
        | _, .error e => .error e
      else
        .error (.valeSubscription
          ("IsAttr subscripted first argument " ++ attr_name ++
           " syntactically invalid (i.e., not valid Python identifier)."))
    else
      .error (.valeSubscription
        ("IsAttr subscripted first argument " ++ attr_name ++
         " not unqualified Python identifier (i.e., contains one or more \".\" characters)."))
  | .intItem n =>
    .error (.valeSubscription
      ("IsAttr subscripted first argument " ++ toString n ++ " not string."))
  | .validatorItem _ =>
    .error (.valeSubscription
      ("IsAttr subscripted first argument not string."))

/-- `IsAttr.__class_getitem__(cls, args)` of `beartype/vale/_valeisobj.py`:
reject a non-tuple subscription, an empty tuple, and a tuple of one or of
three or more items; on a 2-tuple `(attr_name, attr_validator)` defer to
the name handling above. -/
def isAttrGetitem (args : ValeArgs) : Except Exc SubscriptedIs :=
  match args with
  | .nonTuple descr =>
    .error (.valeSubscription
      ("IsAttr subscripted by one non-tuple argument: " ++ descr))
  | .tupleArgs items =>
    match items with
    | [a1, a2] => isAttrHandle a1 a2
    | [] =>
      .error (.valeSubscription "IsAttr subscripted by empty tuple.")
    | _ =>
      .error (.valeSubscription
        "IsAttr subscripted by three or more arguments.")

/-! ### Theorems -/

theorem checkTupleItemsStrValid_ok_iff (label : String) (items : List PyObj) :
    checkTupleItemsStrValid label items = .ok () ↔
      ∀ it ∈ items, (it.isClass || it.isStr) = true := by
  induction items with
  | nil => simp [checkTupleItemsStrValid]
  | cons x xs ih =>
    by_cases hx : (x.isClass || x.isStr) = true
    · rw [show checkTupleItemsStrValid label (x :: xs) =
          checkTupleItemsStrValid label xs from by
            simp only [checkTupleItemsStrValid, if_pos hx]]
      rw [ih]
      constructor
      · intro h it hm
        rcases List.mem_cons.mp hm with hm | hm
        · subst hm; exact hx
        · exact h it hm
      · intro h it hm
        exact h it (List.mem_cons_of_mem x hm)
    · rw [show checkTupleItemsStrValid label (x :: xs) =
          .error (.hintValue (msgTupleItem label x)) from by
            simp only [checkTupleItemsStrValid, if_neg hx]]
      constructor
      · intro h; exact Except.noConfusion h
      · intro h; exact absurd (h x (List.mem_cons_self x xs)) hx

theorem checkTupleItemsStrValid_err (label : String) (items : List PyObj)
    (h : ¬ ∀ it ∈ items, (it.isClass || it.isStr) = true) :
    ∃ off ∈ items, checkTupleItemsStrValid label items =
      .error (.hintValue (msgTupleItem label off)) := by
  induction items with
  | nil => simp at h
  | cons x xs ih =>
    by_cases hx : (x.isClass || x.isStr) = true
    · have hxs : ¬ ∀ it ∈ xs, (it.isClass || it.isStr) = true := by
        intro hall
        apply h
        intro it hm
        rcases List.mem_cons.mp hm with hm | hm
        · subst hm; exact hx
        · exact hall it hm
      obtain ⟨off, hmem, heq⟩ := ih hxs
      exact ⟨off, List.mem_cons_of_mem x hmem,
        by simpa only [checkTupleItemsStrValid, if_pos hx] using heq⟩
    · exact ⟨x, List.mem_cons_self x xs,
        by simp only [checkTupleItemsStrValid, if_neg hx]⟩

theorem checkTupleItemsClassOnly_ok_iff (label : String) (items : List PyObj) :
    checkTupleItemsClassOnly label items = .ok () ↔
      ∀ it ∈ items, it.isClass = true := by
  induction items with
  | nil => simp [checkTupleItemsClassOnly]
  | cons x xs ih =>
    by_cases hx : x.isClass = true
    · rw [show checkTupleItemsClassOnly label (x :: xs) =
          checkTupleItemsClassOnly label xs from by
            simp only [checkTupleItemsClassOnly, if_pos hx]]
      rw [ih]
      constructor
      · intro h it hm
        rcases List.mem_cons.mp hm with hm | hm
        · subst hm; exact hx
        · exact h it hm
      · intro h it hm
        exact h it (List.mem_cons_of_mem x hm)
    · rw [show checkTupleItemsClassOnly label (x :: xs) =
          .error (.hintValue (msgTupleMember label x)) from by
            simp only [checkTupleItemsClassOnly, if_neg hx]]
      constructor
      · intro h; exact Except.noConfusion h
      · intro h; exact absurd (h x (List.mem_cons_self x xs)) hx

theorem checkTupleItemsClassOnly_err (label : String) (items : List PyObj)
    (h : ¬ ∀ it ∈ items, it.isClass = true) :
    ∃ off ∈ items, checkTupleItemsClassOnly label items =
      .error (.hintValue (msgTupleMember label off)) := by
  induction items with
  | nil => simp at h
  | cons x xs ih =>
    by_cases hx : x.isClass = true
    · have hxs : ¬ ∀ it ∈ xs, it.isClass = true := by
        intro hall
        apply h
        intro it hm
        rcases List.mem_cons.mp hm with hm | hm
        · subst hm; exact hx
        · exact hall it hm
      obtain ⟨off, hmem, heq⟩ := ih hxs
      exact ⟨off, List.mem_cons_of_mem x hmem,
        by simpa only [checkTupleItemsClassOnly, if_pos hx] using heq⟩
    · exact ⟨x, List.mem_cons_self x xs,
        by simp only [checkTupleItemsClassOnly, if_neg hx]⟩

theorem containsStr_label_tupleItem (label : String) (it : PyObj) :
    containsStr (msgTupleItem label it) label :=
  ⟨"", " tuple item " ++ pyStr it ++
    " neither a class nor fully-qualified classname.",
   by simp [msgTupleItem, String.append_assoc]⟩

theorem containsStr_item_tupleItem (label : String) (it : PyObj) :
    containsStr (msgTupleItem label it) (pyStr it) :=
  ⟨label ++ " tuple item ",
   " neither a class nor fully-qualified classname.",
   by simp [msgTupleItem, String.append_assoc]⟩

theorem containsStr_label_tupleMember (label : String) (it : PyObj) :
    containsStr (msgTupleMember label it) label :=
  ⟨"", " tuple member " ++ pyStr it ++ " not a class.",
   by simp [msgTupleMember, String.append_assoc]⟩

theorem containsStr_item_tupleMember (label : String) (it : PyObj) :
    containsStr (msgTupleMember label it) (pyStr it) :=
  ⟨label ++ " tuple member ", " not a class.",
   by simp [msgTupleMember, String.append_assoc]⟩

theorem containsStr_label_unsupportedStrValid (label : String) (a : PyObj) :
    containsStr (msgUnsupportedStrValid label a) label :=
  ⟨"", " " ++ pyStr a ++
    " unsupported (i.e., neither a class, fully-qualified classname, nor tuple of classes and/or classnames).",
   by simp [msgUnsupportedStrValid, String.append_assoc]⟩

theorem containsStr_hint_unsupportedStrValid (label : String) (a : PyObj) :
    containsStr (msgUnsupportedStrValid label a) (pyStr a) :=
  ⟨label ++ " ",
   " unsupported (i.e., neither a class, fully-qualified classname, nor tuple of classes and/or classnames).",
   by simp [msgUnsupportedStrValid, String.append_assoc]⟩

theorem containsStr_label_unsupportedClassOnly (label : String) (a : PyObj) :
    containsStr (msgUnsupportedClassOnly label a) label :=
  ⟨"", " " ++ pyStr a ++
    " unsupported (i.e., neither a class nor tuple of classes).",
   by simp [msgUnsupportedClassOnly, String.append_assoc]⟩

theorem containsStr_hint_unsupportedClassOnly (label : String) (a : PyObj) :
    containsStr (msgUnsupportedClassOnly label a) (pyStr a) :=
  ⟨label ++ " ",
   " unsupported (i.e., neither a class nor tuple of classes).",
   by simp [msgUnsupportedClassOnly, String.append_assoc]⟩

/-- C1: for every annotation and label, `_check_type_annotation` with
`is_str_valid=True` returns silently iff the annotation is a class, a
string classname, or a tuple each of whose items is a class or a string;
with `is_str_valid=False`, iff it is a class or a tuple each of whose items
is a class; in every other case it raises
`BeartypeDecorHintValueException` whose message contains the label and a
representation of the offending annotation or tuple item. -/
theorem check_type_annot_contract (a : PyObj) (label : String) (b : Bool) :
    (checkTypeAnnot a label b = .ok () ↔
      (a.isClass = true ∨ (b = true ∧ a.isStr = true) ∨
        (∃ items, a = PyObj.tup items ∧
          ∀ it ∈ items, it.isClass = true ∨ (b = true ∧ it.isStr = true)))) ∧
    (checkTypeAnnot a label b ≠ .ok () →
      ∃ msg off, checkTypeAnnot a label b = .error (.hintValue msg) ∧
        containsStr msg label ∧ containsStr msg (pyStr off) ∧
        (off = a ∨ ∃ items, a = PyObj.tup items ∧ off ∈ items)) := by
  cases a with
  | cls n =>
    constructor
    · simp [checkTypeAnnot, PyObj.isClass]
    · intro h; exact absurd (by simp [checkTypeAnnot, PyObj.isClass]) h
  | str s =>
    cases b with
    | true =>
      constructor
      · simp [checkTypeAnnot, PyObj.isClass, PyObj.isStr]
      · intro h
        exact absurd (by simp [checkTypeAnnot, PyObj.isClass, PyObj.isStr]) h
    | false =>
      constructor
      · simp [checkTypeAnnot, PyObj.isClass, PyObj.isStr]
      · intro _
        refine ⟨msgUnsupportedClassOnly label (PyObj.str s), PyObj.str s,
          by simp [checkTypeAnnot, PyObj.isClass],
          containsStr_label_unsupportedClassOnly label (PyObj.str s),
          containsStr_hint_unsupportedClassOnly label (PyObj.str s),
          Or.inl rfl⟩
  | tup items =>
    cases b with
    | true =>
      constructor
      · rw [show checkTypeAnnot (PyObj.tup items) label true =
            checkTupleItemsStrValid label items from rfl]
        rw [checkTupleItemsStrValid_ok_iff]
        constructor
        · intro h
          exact Or.inr (Or.inr ⟨items, rfl, by
            intro it hm
            have := h it hm
            rcases Bool.or_eq_true_iff.mp this with h1 | h1
            · exact Or.inl h1
            · exact Or.inr ⟨rfl, h1⟩⟩)
        · rintro (h | ⟨_, h⟩ | ⟨items2, heq, h⟩)
          · simp [PyObj.isClass] at h
          · simp [PyObj.isStr] at h
          · cases heq
            intro it hm
            rcases h it hm with h1 | ⟨_, h1⟩
            · exact Bool.or_eq_true_iff.mpr (Or.inl h1)
            · exact Bool.or_eq_true_iff.mpr (Or.inr h1)
      · intro h
        have hne : ¬ ∀ it ∈ items, (it.isClass || it.isStr) = true := by
          intro hall
          exact h (by
            rw [show checkTypeAnnot (PyObj.tup items) label true =
              checkTupleItemsStrValid label items from rfl]
            exact (checkTupleItemsStrValid_ok_iff label items).mpr hall)
        obtain ⟨off, hmem, heq⟩ := checkTupleItemsStrValid_err label items hne
        exact ⟨msgTupleItem label off, off,
          by rw [show checkTypeAnnot (PyObj.tup items) label true =
            checkTupleItemsStrValid label items from rfl]; exact heq,
          containsStr_label_tupleItem label off,
          containsStr_item_tupleItem label off,
          Or.inr ⟨items, rfl, hmem⟩⟩
    | false =>
      constructor
      · rw [show checkTypeAnnot (PyObj.tup items) label false =
            checkTupleItemsClassOnly label items from rfl]
        rw [checkTupleItemsClassOnly_ok_iff]
        constructor
        · intro h
          exact Or.inr (Or.inr ⟨items, rfl, fun it hm => Or.inl (h it hm)⟩)
        · rintro (h | ⟨h, _⟩ | ⟨items2, heq, h⟩)
          · simp [PyObj.isClass] at h
          · simp at h
          · cases heq
            intro it hm
            rcases h it hm with h1 | ⟨h1, _⟩
            · exact h1
            · simp at h1
      · intro h
        have hne : ¬ ∀ it ∈ items, it.isClass = true := by
          intro hall
          exact h (by
            rw [show checkTypeAnnot (PyObj.tup items) label false =
              checkTupleItemsClassOnly label items from rfl]
            exact (checkTupleItemsClassOnly_ok_iff label items).mpr hall)
        obtain ⟨off, hmem, heq⟩ := checkTupleItemsClassOnly_err label items hne
        exact ⟨msgTupleMember label off, off,
          by rw [show checkTypeAnnot (PyObj.tup items) label false =
            checkTupleItemsClassOnly label items from rfl]; exact heq,
          containsStr_label_tupleMember label off,
          containsStr_item_tupleMember label off,
          Or.inr ⟨items, rfl, hmem⟩⟩
  | pyNone =>
    cases b with
    | true =>
      constructor
      · simp [checkTypeAnnot, PyObj.isClass, PyObj.isStr]
      · intro _
        exact ⟨msgUnsupportedStrValid label PyObj.pyNone, PyObj.pyNone,
          by simp [checkTypeAnnot, PyObj.isClass, PyObj.isStr],
          containsStr_label_unsupportedStrValid label PyObj.pyNone,
          containsStr_hint_unsupportedStrValid label PyObj.pyNone,
          Or.inl rfl⟩
    | false =>
      constructor
      · simp [checkTypeAnnot, PyObj.isClass, PyObj.isStr]
      · intro _
        exact ⟨msgUnsupportedClassOnly label PyObj.pyNone, PyObj.pyNone,
          by simp [checkTypeAnnot, PyObj.isClass],
          containsStr_label_unsupportedClassOnly label PyObj.pyNone,
          containsStr_hint_unsupportedClassOnly label PyObj.pyNone,
          Or.inl rfl⟩
  | int n =>
    cases b with
    | true =>
      constructor
      · simp [checkTypeAnnot, PyObj.isClass, PyObj.isStr]
      · intro _
        exact ⟨msgUnsupportedStrValid label (PyObj.int n), PyObj.int n,
          by simp [checkTypeAnnot, PyObj.isClass, PyObj.isStr],
          containsStr_label_unsupportedStrValid label (PyObj.int n),
          containsStr_hint_unsupportedStrValid label (PyObj.int n),
          Or.inl rfl⟩
    | false =>
      constructor
      · simp [checkTypeAnnot, PyObj.isClass, PyObj.isStr]
      · intro _
        exact ⟨msgUnsupportedClassOnly label (PyObj.int n), PyObj.int n,
          by simp [checkTypeAnnot, PyObj.isClass],
          containsStr_label_unsupportedClassOnly label (PyObj.int n),
          containsStr_hint_unsupportedClassOnly label (PyObj.int n),
          Or.inl rfl⟩

/-- Witness for C1: the tuple annotation `(int, 3)` with label `"L"` and
`is_str_valid=True` is invalid and the exception message contains the label
and a representation of the offending item. -/
theorem check_type_annot_contract_witness :
    ∃ msg off,
      checkTypeAnnot (PyObj.tup [PyObj.cls "int", PyObj.int 3]) "L" true =
        .error (.hintValue msg) ∧
      containsStr msg "L" ∧ containsStr msg (pyStr off) ∧
      (off = PyObj.tup [PyObj.cls "int", PyObj.int 3] ∨
        ∃ items,
          PyObj.tup [PyObj.cls "int", PyObj.int 3] = PyObj.tup items ∧
          off ∈ items) :=
  (check_type_annot_contract
      (PyObj.tup [PyObj.cls "int", PyObj.int 3]) "L" true).2
    (fun h => Except.noConfusion h)

/-- C6: when the host interpreter's optimized mode is enabled (`__debug__`
is false), the decorator is exactly the identity function; the choice is
made by the single module-initialization conditional, before any callable
is supplied. -/
theorem beartype_optimized_identity :
    beartypeModule false = fun func => Except.ok func := rfl

/-- The callable of the decorator's own FIXME (lines 65-74 of
`beartype/_decor/decor.py`): parameter and return annotated with the empty
tuple `()`. -/
def badfuncisbad : Callable :=
  Callable.plain "badfuncisbad"
    { params := [{ name := "nonsense_is_nonsense"
                   kind := ParamKind.positionalOrKeyword
                   hint := some (PyObj.tup []) }]
      return_hint := some (PyObj.tup []) }

/-- C2 (code bug): decorating a callable whose parameter and return are
annotated with the empty tuple raises nothing; the decorator returns a
wrapper, contradicting its own FIXME demanding a decoration-time
exception for empty tuple annotations. -/
theorem beartype_accepts_empty_tuple :
    ∃ body, beartype badfuncisbad = .ok (Callable.beartyped body badfuncisbad) :=
  ⟨_, rfl⟩

/-- The callable of the decorator's idempotence FIXME (lines 51-63 of
`beartype/_decor/decor.py`): `def muhfunc() -> str`. -/
def muhfunc : Callable :=
  Callable.plain "muhfunc" { params := [], return_hint := some (PyObj.cls "str") }

/-- C4 (code bug): a second application of the decorator wraps the wrapper
again instead of returning it unchanged; no already-wrapped mark exists in
the code, contradicting the FIXME demanding that repeated decoration
reduce to a noop. -/
theorem beartype_not_idempotent :
    ∃ w w2, beartype muhfunc = .ok w ∧ beartype w = .ok w2 ∧ w2 ≠ w := by
  refine ⟨_, _, rfl, rfl, ?_⟩
  intro h
  injection h with h1 h2
  exact Callable.noConfusion h2

/-- A callable bearing no annotations at all. -/
def unannotatedFunc : Callable :=
  Callable.plain "plainfunc"
    { params := [{ name := "x"
                   kind := ParamKind.positionalOrKeyword
                   hint := none }]
      return_hint := none }

/-- C5 (code bug): decorating a callable that bears no annotations at all
still returns a fresh wrapper rather than the callable itself,
contradicting the decorator's own FIXME demanding the noop reduction. -/
theorem beartype_unannotated_not_noop :
    ∃ body,
      beartype unannotatedFunc = .ok (Callable.beartyped body unannotatedFunc) ∧
      Callable.beartyped body unannotatedFunc ≠ unannotatedFunc :=
  ⟨_, rfl, fun h => Callable.noConfusion h⟩

/-- C10: an annotated parameter of positional-only or variadic-keyword
kind is skipped entirely by the decorator's parameter loop: no check code
is emitted and the annotation is never validated, so even a malformed
annotation raises no decoration-time error. -/
theorem ignorable_kind_param_skipped (func_name : String) (i : Nat)
    (p : Param) (hk : p.kind ∈ _PARAM_KIND_IGNORABLE)
    (hn : pyStartsWith p.name "__beartype_" = false) :
    processParam func_name i p = .ok [] := by
  cases hp : p.hint with
  | some a => simp [processParam, hn, hp, hk]
  | none => simp [processParam, hn, hp]

/-- Witness for C10: a variadic-keyword parameter annotated with the
malformed annotation `5` is skipped. -/
theorem ignorable_kind_param_skipped_witness :
    ParamKind.varKeyword ∈ _PARAM_KIND_IGNORABLE ∧
    processParam "@beartyped f()" 1
      { name := "kwargs", kind := ParamKind.varKeyword,
        hint := some (PyObj.int 5) } = .ok [] :=
  ⟨by decide,
   ignorable_kind_param_skipped "@beartyped f()" 1
     { name := "kwargs", kind := ParamKind.varKeyword,
       hint := some (PyObj.int 5) } (by decide) (by decide)⟩

/-- Decomposition of a successful decoration: the wrapper wraps the
original callable and its body is the signature snippet followed by the
parameter snippets followed by the return snippets. -/
theorem beartype_ok_shape (func w : Callable) (h : beartype func = .ok w) :
    ∃ pc rc,
      processParams ("@beartyped " ++ func.pyName ++ "()") 0
        func.pySig.params = .ok pc ∧
      processReturn ("@beartyped " ++ func.pyName ++ "()")
        func.pySig.return_hint = .ok rc ∧
      w = .beartyped
        (Code.sigDecl ("__" ++ func.pyName ++ "_beartyped__") ::
          (pc ++ rc)) func := by
  unfold beartype at h
  cases hp : processParams ("@beartyped " ++ func.pyName ++ "()") 0
      func.pySig.params with
  | error e => rw [hp] at h; exact Except.noConfusion h
  | ok pc =>
    rw [hp] at h
    cases hr : processReturn ("@beartyped " ++ func.pyName ++ "()")
        func.pySig.return_hint with
    | error e => rw [hr] at h; exact Except.noConfusion h
    | ok rc =>
      rw [hr] at h
      injection h with h1
      exact ⟨pc, rc, rfl, rfl, h1.symm⟩

/-- On a return annotation that is present and not `None`, a successful
`processReturn` emits the replacement snippets followed by the checked
call. -/
theorem processReturn_checked (func_name : String) (a : PyObj) (rc : List Code)
    (ha : a ≠ PyObj.pyNone)
    (h : processReturn func_name (some a) = .ok rc) :
    rc = getCodeReplacingHintByTypes a codeAnnotReturnExpr
        (func_name ++ " return type annotation") ++
      [Code.callChecked func_name codeAnnotReturnExpr] := by
  cases a with
  | pyNone => exact absurd rfl ha
  | cls n =>
    revert h
    simp only [processReturn]
    cases hc : checkTypeAnnot (PyObj.cls n)
        (func_name ++ " return type annotation") true with
    | error e => intro h; exact Except.noConfusion h
    | ok u => cases u; intro h; injection h with h1; exact h1.symm
  | str s =>
    revert h
    simp only [processReturn]
    cases hc : checkTypeAnnot (PyObj.str s)
        (func_name ++ " return type annotation") true with
    | error e => intro h; exact Except.noConfusion h
    | ok u => cases u; intro h; injection h with h1; exact h1.symm
  | tup items =>
    revert h
    simp only [processReturn]
    cases hc : checkTypeAnnot (PyObj.tup items)
        (func_name ++ " return type annotation") true with
    | error e => intro h; exact Except.noConfusion h
    | ok u => cases u; intro h; injection h with h1; exact h1.symm
  | int n =>
    revert h
    simp only [processReturn]
    cases hc : checkTypeAnnot (PyObj.int n)
        (func_name ++ " return type annotation") true with
    | error e => intro h; exact Except.noConfusion h
    | ok u => cases u; intro h; injection h with h1; exact h1.symm

/-- The last element of a nonempty suffix is the last element of the whole
body. -/
theorem getLast_cons_append (a : Code) (l1 l2 : List Code) (x : Code)
    (h : l2.getLast? = some x) :
    (a :: (l1 ++ l2)).getLast? = some x := by
  have h2 : l2 ≠ [] := by rintro rfl; exact Option.noConfusion h
  rw [show a :: (l1 ++ l2) = (a :: l1) ++ l2 from rfl]
  rw [List.getLast?_append_of_ne_nil (a :: l1) h2]
  exact h

/-- C7: for every decorated callable, if the return annotation is absent
(`Signature.empty`) or is the returns-nothing marker `None`, the
synthesized wrapper body ends with the unchecked epilogue (call the
wrapped callable and return its result with no return-type check);
otherwise it ends with the checked epilogue (assign the call's result,
check it against the resolved return annotation, and return it). -/
theorem beartype_return_epilogue (func : Callable) (body : List Code)
    (h : beartype func = .ok (.beartyped body func)) :
    ((func.pySig.return_hint = none ∨
        func.pySig.return_hint = some PyObj.pyNone) →
      body.getLast? = some Code.callUnchecked) ∧
    (∀ a, func.pySig.return_hint = some a → a ≠ PyObj.pyNone →
      body.getLast? = some (Code.callChecked
        ("@beartyped " ++ func.pyName ++ "()") codeAnnotReturnExpr)) := by
  obtain ⟨pc, rc, hp, hr, hw⟩ := beartype_ok_shape func _ h
  injection hw with hbody hfunc
  constructor
  · intro hret
    rcases hret with hret | hret
    · rw [hret] at hr
      simp only [processReturn] at hr
      injection hr with h1
      rw [hbody, ← h1]
      exact getLast_cons_append _ _ _ _ (by rfl)
    · rw [hret] at hr
      simp only [processReturn] at hr
      injection hr with h1
      rw [hbody, ← h1]
      exact getLast_cons_append _ _ _ _ (by rfl)
  · intro a hret ha
    rw [hret] at hr
    have hrc := processReturn_checked _ a rc ha hr
    rw [hbody, hrc]
    exact getLast_cons_append _ _ _ _ (List.getLast?_concat _)

/-- A callable with an unannotated return. -/
def c7func : Callable :=
  Callable.plain "g" { params := [], return_hint := none }

/-- Witness for C7: decorating a callable with no return annotation yields
a body ending with the unchecked call. -/
theorem beartype_return_epilogue_witness :
    beartype c7func =
      .ok (.beartyped [Code.sigDecl "__g_beartyped__", Code.callUnchecked]
        c7func) ∧
    [Code.sigDecl "__g_beartyped__", Code.callUnchecked].getLast? =
      some Code.callUnchecked :=
  ⟨rfl, (beartype_return_epilogue c7func
    [Code.sigDecl "__g_beartyped__", Code.callUnchecked] rfl).1 (Or.inl rfl)⟩

/-- C8: for every PEP 484 union hint (a hint whose sign is one of the
union signs), the ignorability analyzer returns true iff at least one
child hint of the union is ignorable, and false otherwise. -/
theorem union_ignorable_iff (is_hint_ignorable : PepHint → Bool)
    (hint : PepHint) (sign : HintSign) (h : sign ∈ HINT_SIGNS_UNION) :
    (is_hint_pep484_ignorable_or_none is_hint_ignorable hint sign =
        some true ↔
      ∃ child ∈ get_hint_pep_args hint, is_hint_ignorable child = true) ∧
    ((¬ ∃ child ∈ get_hint_pep_args hint, is_hint_ignorable child = true) →
      is_hint_pep484_ignorable_or_none is_hint_ignorable hint sign =
        some false) := by
  have h1 : sign ≠ HintSign.generic := by
    rintro rfl; simp [HINT_SIGNS_UNION] at h
  have h2 : sign ≠ HintSign.newType := by
    rintro rfl; simp [HINT_SIGNS_UNION] at h
  rw [show is_hint_pep484_ignorable_or_none is_hint_ignorable hint sign =
      some ((get_hint_pep_args hint).any is_hint_ignorable) from by
        simp [is_hint_pep484_ignorable_or_none, h1, h2, h]]
  constructor
  · rw [Option.some_inj, List.any_eq_true]
  · intro hn
    rw [Option.some_inj]
    rw [show ∀ b : Bool, (b = false) = (¬ b = true) from fun b => by simp]
    rw [List.any_eq_true]
    exact hn

/-- Witness for C8: a union of one child deemed ignorable is reported
ignorable. -/
theorem union_ignorable_iff_witness :
    HintSign.union ∈ HINT_SIGNS_UNION ∧
    is_hint_pep484_ignorable_or_none (fun _ => true)
      (PepHint.unionOf [PepHint.atom "x"]) HintSign.union = some true := by
  refine ⟨by decide, ?_⟩
  exact (union_ignorable_iff (fun _ => true)
      (PepHint.unionOf [PepHint.atom "x"]) HintSign.union (by decide)).1.mpr
    ⟨PepHint.atom "x", by simp [get_hint_pep_args], rfl⟩

/-- An example inner validator for `IsAttr` subscriptions. -/
def sampleValidator : SubscriptedIs :=
  { is_valid_code := ValeCode.leaf "IsEqual"
    is_valid_code_locals := [("__beartype_isequal", "value")] }

/-- C9 (counterexample): subscripting `IsAttr` with the dotted attribute
path `"a.b"` and a validator raises
`BeartypeValeSubscriptionException` instead of being accepted
structurally. -/
theorem isattr_dotted_rejected :
    isAttrGetitem (ValeArgs.tupleArgs
      [ValeItem.strItem "a.b", ValeItem.validatorItem sampleValidator]) =
    .error (.valeSubscription
      ("IsAttr subscripted first argument " ++ "a.b" ++
       " not unqualified Python identifier (i.e., contains one or more \".\" characters).")) := rfl

/-- C9 (amended): subscripting `IsAttr` with `(name, validator)` requires
a non-empty string name — an empty or non-string name raises
`BeartypeValeSubscriptionException`; a bare (undotted) identifier name is
accepted and synthesized inline into a code fragment with the sentinel
injected into the captured locals; a dotted attribute path likewise raises
`BeartypeValeSubscriptionException` (its synthesis arm is
unimplemented). -/
theorem isattr_subscription_contract (s : String) (v : SubscriptedIs) :
    (isAttrGetitem (ValeArgs.tupleArgs
        [ValeItem.strItem "", ValeItem.validatorItem v]) =
      .error (.valeSubscription
        ("IsAttr subscripted first argument " ++ "" ++ " empty."))) ∧
    (∀ n : Int, isAttrGetitem (ValeArgs.tupleArgs
        [ValeItem.intItem n, ValeItem.validatorItem v]) =
      .error (.valeSubscription
        ("IsAttr subscripted first argument " ++ toString n ++
         " not string."))) ∧
    (isPyIdentifier s = true → pyHasDot s = false →
      isAttrGetitem (ValeArgs.tupleArgs
        [ValeItem.strItem s, ValeItem.validatorItem v]) =
      .ok { is_valid_code :=
              ValeCode.isattrCheck ("__beartype_isattr_" ++ s) s
                sentinelScopeName v.is_valid_code
            is_valid_code_locals :=
              (sentinelScopeName, "SENTINEL") :: v.is_valid_code_locals }) ∧
    (pyHasDot s = true →
      isAttrGetitem (ValeArgs.tupleArgs
        [ValeItem.strItem s, ValeItem.validatorItem v]) =
      .error (.valeSubscription
        ("IsAttr subscripted first argument " ++ s ++
         " not unqualified Python identifier (i.e., contains one or more \".\" characters)."))) := by
  refine ⟨rfl, fun n => rfl, ?_, ?_⟩
  · intro hid hdot
    have hne : ¬ (s = "") := by
      rintro rfl
      exact absurd hid (by decide)
    show isAttrHandle (ValeItem.strItem s) (ValeItem.validatorItem v) = _
    simp only [isAttrHandle, if_neg hne, hdot, if_pos, hid, if_true]
    rfl
  · intro hdot
    have hne : ¬ (s = "") := by
      rintro rfl
      exact absurd hdot (by decide)
    show isAttrHandle (ValeItem.strItem s) (ValeItem.validatorItem v) = _
    have hdot2 : ¬ (pyHasDot s = false) := by rw [hdot]; decide
    simp only [isAttrHandle, if_neg hne, if_neg hdot2]

/-- Witness for C9: the bare identifier name `"dtype"` is accepted and the
inline attribute-probe fragment is synthesized. -/
theorem isattr_subscription_contract_witness :
    isAttrGetitem (ValeArgs.tupleArgs
      [ValeItem.strItem "dtype", ValeItem.validatorItem sampleValidator]) =
    .ok { is_valid_code :=
            ValeCode.isattrCheck ("__beartype_isattr_" ++ "dtype") "dtype"
              sentinelScopeName sampleValidator.is_valid_code
          is_valid_code_locals :=
            (sentinelScopeName, "SENTINEL") ::
              sampleValidator.is_valid_code_locals } :=
  ((isattr_subscription_contract "dtype" sampleValidator).2.2.1
    (by decide) (by decide))

/-- A parameter over which the decorator's loop passes silently: its name
is not reserved and, when it is annotated with a non-ignorable kind, its
annotation validates. -/
def paramSilent (func_name : String) (p : Param) : Bool :=
  !pyStartsWith p.name "__beartype_" &&
  (match p.hint with
   | some a =>
     decide (p.kind ∈ _PARAM_KIND_IGNORABLE) ||
     (match checkTypeAnnot a (paramLabel func_name p.name) true with
      | .ok _ => true
      | .error _ => false)
   | none => true)

theorem processParam_reserved (func_name : String) (i : Nat) (p : Param)
    (h : pyStartsWith p.name "__beartype_" = true) :
    processParam func_name i p = .error (.paramName
      ("Parameter \"" ++ p.name ++ "\" reserved for use by @beartype.")) := by
  simp [processParam, h]

/-- A fallible computation that tests as successful has an `ok` value. -/
def exOk {α : Type} : Except Exc α → Bool
  | .ok _ => true
  | .error _ => false

theorem exOk_exists {α : Type} (x : Except Exc α) (h : exOk x = true) :
    ∃ c, x = .ok c := by
  cases x with
  | ok c => exact ⟨c, rfl⟩
  | error e => exact absurd h (by simp [exOk])

theorem processParam_silent_ok (func_name : String) (i : Nat) (p : Param)
    (h : paramSilent func_name p = true) :
    ∃ c, processParam func_name i p = .ok c := by
  obtain ⟨nm, kd, hint⟩ := p
  simp only [paramSilent, Bool.and_eq_true] at h
  obtain ⟨h1, h2⟩ := h
  have h1' : pyStartsWith nm "__beartype_" = false := by
    cases hb : pyStartsWith nm "__beartype_"
    · rfl
    · rw [hb] at h1; exact absurd h1 (by decide)
  refine exOk_exists _ ?_
  cases hint with
  | none => simp [processParam, exOk, h1']
  | some a =>
    by_cases hk : kd ∈ _PARAM_KIND_IGNORABLE
    · simp [processParam, exOk, h1', hk]
    · have hk' : decide (kd ∈ _PARAM_KIND_IGNORABLE) = false := by
        simpa using hk
      simp only [hk', Bool.false_or] at h2
      cases hc : checkTypeAnnot a (paramLabel func_name nm) true with
      | error e => rw [hc] at h2; simp at h2
      | ok u =>
        cases u
        simp [processParam, exOk, h1', hk, hc]

theorem checkTupleItemsStrValid_error_hintValue (label : String)
    (items : List PyObj) (e : Exc)
    (h : checkTupleItemsStrValid label items = .error e) :
    ∃ m, e = Exc.hintValue m := by
  induction items with
  | nil => exact absurd h (by simp [checkTupleItemsStrValid])
  | cons x xs ih =>
    by_cases hx : (x.isClass || x.isStr) = true
    · exact ih (by
        simpa only [checkTupleItemsStrValid, if_pos hx] using h)
    · rw [show checkTupleItemsStrValid label (x :: xs) =
          .error (.hintValue (msgTupleItem label x)) from by
            simp only [checkTupleItemsStrValid, if_neg hx]] at h
      injection h with h1
      exact ⟨_, h1.symm⟩

theorem checkTupleItemsClassOnly_error_hintValue (label : String)
    (items : List PyObj) (e : Exc)
    (h : checkTupleItemsClassOnly label items = .error e) :
    ∃ m, e = Exc.hintValue m := by
  induction items with
  | nil => exact absurd h (by simp [checkTupleItemsClassOnly])
  | cons x xs ih =>
    by_cases hx : x.isClass = true
    · exact ih (by
        simpa only [checkTupleItemsClassOnly, if_pos hx] using h)
    · rw [show checkTupleItemsClassOnly label (x :: xs) =
          .error (.hintValue (msgTupleMember label x)) from by
            simp only [checkTupleItemsClassOnly, if_neg hx]] at h
      injection h with h1
      exact ⟨_, h1.symm⟩

/-- Every exception raised by `_check_type_annotation` is a
`BeartypeDecorHintValueException`. -/
theorem checkTypeAnnot_error_hintValue (a : PyObj) (label : String)
    (b : Bool) (e : Exc) (h : checkTypeAnnot a label b = .error e) :
    ∃ m, e = Exc.hintValue m := by
  cases a with
  | cls n => exact absurd h (by simp [checkTypeAnnot, PyObj.isClass])
  | str s =>
    cases b with
    | true =>
      exact absurd h (by simp [checkTypeAnnot, PyObj.isClass, PyObj.isStr])
    | false =>
      rw [show checkTypeAnnot (PyObj.str s) label false =
          .error (.hintValue (msgUnsupportedClassOnly label (PyObj.str s)))
          from rfl] at h
      injection h with h1
      exact ⟨_, h1.symm⟩
  | tup items =>
    cases b with
    | true =>
      exact checkTupleItemsStrValid_error_hintValue label items e
        (by rwa [show checkTypeAnnot (PyObj.tup items) label true =
          checkTupleItemsStrValid label items from rfl] at h)
    | false =>
      exact checkTupleItemsClassOnly_error_hintValue label items e
        (by rwa [show checkTypeAnnot (PyObj.tup items) label false =
          checkTupleItemsClassOnly label items from rfl] at h)
  | pyNone =>
    cases b with
    | true =>
      rw [show checkTypeAnnot PyObj.pyNone label true =
          .error (.hintValue (msgUnsupportedStrValid label PyObj.pyNone))
          from rfl] at h
      injection h with h1
      exact ⟨_, h1.symm⟩
    | false =>
      rw [show checkTypeAnnot PyObj.pyNone label false =
          .error (.hintValue (msgUnsupportedClassOnly label PyObj.pyNone))
          from rfl] at h
      injection h with h1
      exact ⟨_, h1.symm⟩
  | int n =>
    cases b with
    | true =>
      rw [show checkTypeAnnot (PyObj.int n) label true =
          .error (.hintValue (msgUnsupportedStrValid label (PyObj.int n)))
          from rfl] at h
      injection h with h1
      exact ⟨_, h1.symm⟩
    | false =>
      rw [show checkTypeAnnot (PyObj.int n) label false =
          .error (.hintValue (msgUnsupportedClassOnly label (PyObj.int n)))
          from rfl] at h
      injection h with h1
      exact ⟨_, h1.symm⟩

/-- A non-silent parameter whose name is not reserved fails its annotation
validation, so the loop raises a `BeartypeDecorHintValueException` on
it. -/
theorem processParam_nonsilent_hintValue (func_name : String) (i : Nat)
    (r : Param) (hns : paramSilent func_name r = false)
    (hnr : pyStartsWith r.name "__beartype_" = false) :
    ∃ m, processParam func_name i r = .error (.hintValue m) := by
  obtain ⟨nm, kd, hint⟩ := r
  have hnr2 : pyStartsWith nm "__beartype_" = false := hnr
  simp only [paramSilent, hnr2, Bool.not_false, Bool.true_and] at hns
  cases hint with
  | none => simp at hns
  | some a =>
    have hk : ¬ kd ∈ _PARAM_KIND_IGNORABLE := by
      intro hmem
      rw [decide_eq_true hmem] at hns
      simp at hns
    have hk2 : decide (kd ∈ _PARAM_KIND_IGNORABLE) = false :=
      decide_eq_false hk
    simp only [hk2, Bool.false_or] at hns
    cases hc : checkTypeAnnot a (paramLabel func_name nm) true with
    | ok u => cases u; rw [hc] at hns; simp at hns
    | error e =>
      obtain ⟨m, hm⟩ :=
        checkTypeAnnot_error_hintValue a (paramLabel func_name nm) true e hc
      subst hm
      refine ⟨m, ?_⟩
      simp [processParam, hnr2, hk, hc]

/-- Running the loop over a silent prefix followed by a non-silent,
non-reserved parameter raises a `BeartypeDecorHintValueException`. -/
theorem processParams_hintValue_after_silent (func_name : String)
    (pre : List Param) :
    ∀ (i : Nat) (r : Param) (post : List Param),
      (∀ q ∈ pre, paramSilent func_name q = true) →
      paramSilent func_name r = false →
      pyStartsWith r.name "__beartype_" = false →
      ∃ m, processParams func_name i (pre ++ r :: post) =
        .error (.hintValue m) := by
  induction pre with
  | nil =>
    intro i r post _ hns hnr
    obtain ⟨m, hm⟩ := processParam_nonsilent_hintValue func_name i r hns hnr
    exact ⟨m, by simp only [List.nil_append, processParams, hm]⟩
  | cons q pre ih =>
    intro i r post hsil hns hnr
    obtain ⟨c, hc⟩ := processParam_silent_ok func_name i q
      (hsil q (List.mem_cons_self q pre))
    obtain ⟨m, hm⟩ := ih (i + 1) r post
      (fun s hs => hsil s (List.mem_cons_of_mem q hs)) hns hnr
    refine ⟨m, ?_⟩
    show processParams func_name i (q :: (pre ++ r :: post)) = _
    simp only [processParams, hc, hm]

theorem processParams_err_of_reserved (func_name : String) (ps : List Param) :
    ∀ i : Nat, (∃ p ∈ ps, pyStartsWith p.name "__beartype_" = true) →
      ∃ e, processParams func_name i ps = .error e := by
  induction ps with
  | nil =>
    intro i h
    obtain ⟨p, hp, _⟩ := h
    cases hp
  | cons q qs ih =>
    intro i h
    obtain ⟨p, hp, hres⟩ := h
    rcases List.mem_cons.mp hp with heq | hp
    · subst heq
      refine ⟨Exc.paramName
        ("Parameter \"" ++ p.name ++ "\" reserved for use by @beartype."), ?_⟩
      simp only [processParams, processParam_reserved func_name i p hres]
    · cases hq : processParam func_name i q with
      | error e => exact ⟨e, by simp only [processParams, hq]⟩
      | ok c =>
        obtain ⟨e, he⟩ := ih (i + 1) ⟨p, hp, hres⟩
        exact ⟨e, by simp only [processParams, hq, he]⟩

theorem processParams_reserved_after_silent (func_name : String)
    (pre : List Param) :
    ∀ (i : Nat) (p : Param) (post : List Param),
      (∀ q ∈ pre, paramSilent func_name q = true) →
      pyStartsWith p.name "__beartype_" = true →
      processParams func_name i (pre ++ p :: post) =
        .error (.paramName
          ("Parameter \"" ++ p.name ++ "\" reserved for use by @beartype.")) := by
  induction pre with
  | nil =>
    intro i p post _ hres
    simp only [List.nil_append, processParams,
      processParam_reserved func_name i p hres]
  | cons q pre ih =>
    intro i p post hsil hres
    obtain ⟨c, hc⟩ := processParam_silent_ok func_name i q
      (hsil q (List.mem_cons_self q pre))
    have hrec := ih (i + 1) p post
      (fun r hr => hsil r (List.mem_cons_of_mem q hr)) hres
    show processParams func_name i (q :: (pre ++ p :: post)) = _
    simp only [processParams, hc, hrec]

/-- C3 (amended): a callable with a parameter whose name begins with the
reserved prefix `__beartype_` is always rejected at decoration — no
wrapper is produced.  If every parameter preceding the reserved-named one
passes the loop silently (is unannotated, of an ignorable kind, or validly
annotated), the raised error is the reserved-parameter-name exception
`BeartypeDecorParamNameException` naming that parameter; if instead the
first non-silently-passing parameter before it is not itself
reserved-named, its annotation is invalid and the raised error is that
parameter's `BeartypeDecorHintValueException`. -/
theorem beartype_reserved_param (func : Callable) (pre : List Param)
    (p : Param) (post : List Param)
    (hsplit : func.pySig.params = pre ++ p :: post)
    (hres : pyStartsWith p.name "__beartype_" = true) :
    (∃ e, beartype func = .error e) ∧
    ((∀ q ∈ pre,
        paramSilent ("@beartyped " ++ func.pyName ++ "()") q = true) →
      beartype func = .error (.paramName
        ("Parameter \"" ++ p.name ++ "\" reserved for use by @beartype."))) ∧
    (∀ (pre2 : List Param) (r : Param) (post2 : List Param),
      pre = pre2 ++ r :: post2 →
      (∀ q ∈ pre2,
        paramSilent ("@beartyped " ++ func.pyName ++ "()") q = true) →
      paramSilent ("@beartyped " ++ func.pyName ++ "()") r = false →
      pyStartsWith r.name "__beartype_" = false →
      ∃ m, beartype func = .error (.hintValue m)) := by
  refine ⟨?_, ?_, ?_⟩
  · obtain ⟨e, he⟩ := processParams_err_of_reserved
      ("@beartyped " ++ func.pyName ++ "()") func.pySig.params 0
      ⟨p, by
        rw [hsplit]
        exact List.mem_append_right pre (List.mem_cons_self p post), hres⟩
    exact ⟨e, by simp only [beartype, he]⟩
  · intro hsil
    have he := processParams_reserved_after_silent
      ("@beartyped " ++ func.pyName ++ "()") pre 0 p post hsil hres
    rw [← hsplit] at he
    simp only [beartype, he]
  · intro pre2 r post2 hpre hsil hns hnr
    obtain ⟨m, hm⟩ := processParams_hintValue_after_silent
      ("@beartyped " ++ func.pyName ++ "()") pre2 0 r (post2 ++ p :: post)
      hsil hns hnr
    have hp2 : func.pySig.params = pre2 ++ r :: (post2 ++ p :: post) := by
      rw [hsplit, hpre, List.append_assoc, List.cons_append]
    rw [← hp2] at hm
    exact ⟨m, by simp only [beartype, hm]⟩

/-- A callable whose malformed-annotated parameter precedes its
reserved-named parameter. -/
def badThenReserved : Callable :=
  Callable.plain "f"
    { params := [{ name := "x"
                   kind := ParamKind.positionalOrKeyword
                   hint := some (PyObj.int 5) },
                 { name := "__beartype_y"
                   kind := ParamKind.positionalOrKeyword
                   hint := none }]
      return_hint := none }

/-- True exactly on a `BeartypeDecorParamNameException` outcome. -/
def isParamNameError : Except Exc Callable → Bool
  | .error (.paramName _) => true
  | _ => false

/-- True exactly on an erroring outcome. -/
def isErrorResult : Except Exc Callable → Bool
  | .error _ => true
  | _ => false

/-- C3 (counterexample): decorating a callable that has a reserved-named
parameter can raise the earlier parameter's
`BeartypeDecorHintValueException` — here the one reporting the malformed
annotation `5` of parameter `x` — instead of the reserved-parameter-name
exception; decoration still fails. -/
theorem beartype_reserved_param_counterexample :
    beartype badThenReserved = .error (.hintValue
      (msgUnsupportedStrValid (paramLabel "@beartyped f()" "x")
        (PyObj.int 5))) ∧
    isParamNameError (beartype badThenReserved) = false ∧
    isErrorResult (beartype badThenReserved) = true :=
  ⟨rfl, rfl, rfl⟩

/-- A callable with a validly annotated parameter before its
reserved-named parameter. -/
def goodThenReserved : Callable :=
  Callable.plain "f"
    { params := [{ name := "x"
                   kind := ParamKind.positionalOrKeyword
                   hint := some (PyObj.cls "int") },
                 { name := "__beartype_y"
                   kind := ParamKind.positionalOrKeyword
                   hint := none }]
      return_hint := none }

/-- Witness for C3: with the earlier parameter validly annotated the
reserved-parameter-name exception is raised, and with it malformed the
raised error is a hint-value exception. -/
theorem beartype_reserved_param_witness :
    (beartype goodThenReserved = .error (.paramName
      ("Parameter \"" ++ "__beartype_y" ++
       "\" reserved for use by @beartype."))) ∧
    (∃ m, beartype badThenReserved = .error (.hintValue m)) :=
  ⟨(beartype_reserved_param goodThenReserved
      [{ name := "x"
         kind := ParamKind.positionalOrKeyword
         hint := some (PyObj.cls "int") }]
      { name := "__beartype_y"
        kind := ParamKind.positionalOrKeyword
        hint := none }
      [] rfl (by decide)).2.1 (by decide),
   (beartype_reserved_param badThenReserved
      [{ name := "x"
         kind := ParamKind.positionalOrKeyword
         hint := some (PyObj.int 5) }]
      { name := "__beartype_y"
        kind := ParamKind.positionalOrKeyword
        hint := none }
      [] rfl (by decide)).2.2 []
      { name := "x"
        kind := ParamKind.positionalOrKeyword
        hint := some (PyObj.int 5) }
      [] rfl (by decide) (by decide) (by decide)⟩

end BeartypeSpec
